import Mathlib

/-!
Shallow embedding of the Book Hub repository (a succession of near-duplicate
Express + Mongoose server variants) and verification of its specification.

Variant naming:
* `Part000` — the authenticated variant (bcrypt + JWT, structured owner,
  protected listing routes).
* `Part001` — the simulated-authentication variant (login checks only the
  email domain and issues a placeholder token).
* `Part002` — the variant with real signup/login but unprotected listing
  routes, plain string owner, and a strict MONGO_URI startup check.
* `DocsServer` — the minimal variant in Documents/Book app/server.js
  (no auth, plain contact string, delete without a NotFound check).

Database state is a list of documents in insertion order; the Mongo query
`find().sort(createdAt: -1)` is embedded as an insertion sort on the
`createdAt` key, descending.  The bcrypt and JWT library primitives, which
the repository uses as black boxes, are embedded as deterministic Lean
functions that retain exactly the structure the routes rely on.
-/

namespace BookHub

/-- Identity claims carried by a verified bearer token: the payload
`(userId, name, email)` that `createToken` signs. -/
structure Identity where
  userId : Nat
  name : String
  email : String
deriving DecidableEq

/-- Model of the JWT library primitive.  A raw token is either a malformed
string (never produced by `sign`) or a signed payload; the `expired` flag
embeds the clock check made by `jwt.verify`. -/
inductive Jwt where
  | malformed : Jwt
  | signed (claims : Identity) (secret : String) (expired : Bool) : Jwt
deriving DecidableEq

/-- Model of `jwt.verify(token, secret)`: succeeds with the claims exactly
when the token is well formed, signed with the same secret, and not
expired; otherwise errs (returns `none`). -/
def jwtVerify (t : Jwt) (secret : String) : Option Identity :=
  match t with
  | .malformed => none
  | .signed claims sec expired =>
      if sec = secret ∧ expired = false then some claims else none

/-- Model of `bcrypt.hash(password, salt)`: an injective one-way map. -/
def bcryptHash (password : String) : String :=
  "bcrypt$" ++ password

/-- Model of `bcrypt.compare(password, hash)`. -/
def bcryptCompare (password hash : String) : Bool :=
  hash == bcryptHash password

/-- Default JWT secret from the source
(`process.env.JWT_SECRET || 'your_default_secret_key_if_not_set'`). -/
def jwtSecret : String := "your_default_secret_key_if_not_set"

/-- JS `s.endsWith(suffix)`, embedded over the character lists of the two
strings. -/
def strEndsWith (s suffix : String) : Bool :=
  List.isSuffixOf suffix.data s.data

/-! ### Sorting on the createdAt key

`Book.find().sort(createdAt: -1)` returns the documents ordered by
descending `createdAt`.  We embed it as an insertion sort parametrised by
the sort key. -/

/-- Insert `x` into `l` in front of the first element whose key is not
larger, keeping a descending order by `key`. -/
def insertByKeyDesc (key : α → Nat) (x : α) : List α → List α
  | [] => [x]
  | y :: ys => if key y ≤ key x then x :: y :: ys else y :: insertByKeyDesc key x ys

/-- Sort a list by descending `key` (embedding of `sort(createdAt: -1)`). -/
def sortByKeyDesc (key : α → Nat) : List α → List α
  | [] => []
  | x :: xs => insertByKeyDesc key x (sortByKeyDesc key xs)

theorem length_insertByKeyDesc (key : α → Nat) (x : α) (l : List α) :
    (insertByKeyDesc key x l).length = l.length + 1 := by
  induction l with
  | nil => rfl
  | cons y ys ih =>
    by_cases hc : key y ≤ key x
    · simp [insertByKeyDesc, hc]
    · simp [insertByKeyDesc, hc, ih]

theorem length_sortByKeyDesc (key : α → Nat) (l : List α) :
    (sortByKeyDesc key l).length = l.length := by
  induction l with
  | nil => rfl
  | cons x xs ih => simp [sortByKeyDesc, length_insertByKeyDesc, ih]

theorem mem_insertByKeyDesc (key : α → Nat) (x : α) (l : List α) (a : α) :
    a ∈ insertByKeyDesc key x l ↔ a = x ∨ a ∈ l := by
  induction l with
  | nil => simp [insertByKeyDesc]
  | cons y ys ih =>
    by_cases hc : key y ≤ key x
    · simp [insertByKeyDesc, hc]
    · simp [insertByKeyDesc, hc, ih]
      tauto

theorem mem_sortByKeyDesc (key : α → Nat) (l : List α) (a : α) :
    a ∈ sortByKeyDesc key l ↔ a ∈ l := by
  induction l with
  | nil => simp [sortByKeyDesc]
  | cons x xs ih => simp [sortByKeyDesc, mem_insertByKeyDesc, ih]

theorem insertByKeyDesc_eq_append (key : α → Nat) (x : α) (l : List α)
    (h : ∀ y ∈ l, key x < key y) : insertByKeyDesc key x l = l ++ [x] := by
  induction l with
  | nil => rfl
  | cons y ys ih =>
    have hy : key x < key y := h y (by simp)
    have hc : ¬ key y ≤ key x := by omega
    simp only [insertByKeyDesc, if_neg hc, List.cons_append, List.cons.injEq, true_and]
    exact ih fun z hz => h z (by simp [hz])

/-- On a list whose keys are strictly increasing in insertion order, the
descending sort is exactly the reverse of the list. -/
theorem sortByKeyDesc_eq_reverse (key : α → Nat) (l : List α)
    (h : l.Pairwise fun a b => key a < key b) :
    sortByKeyDesc key l = l.reverse := by
  induction l with
  | nil => rfl
  | cons x xs ih =>
    rw [List.pairwise_cons] at h
    show insertByKeyDesc key x (sortByKeyDesc key xs) = (x :: xs).reverse
    rw [ih h.2, insertByKeyDesc_eq_append, List.reverse_cons]
    intro y hy
    exact h.1 y (List.mem_reverse.mp hy)

theorem insertByKeyDesc_map (key : α → Nat) (g : α → α)
    (hg : ∀ a, key (g a) = key a) (x : α) (l : List α) :
    insertByKeyDesc key (g x) (l.map g) = (insertByKeyDesc key x l).map g := by
  induction l with
  | nil => rfl
  | cons y ys ih =>
    by_cases hc : key y ≤ key x
    · simp [insertByKeyDesc, hg, hc]
    · simp [insertByKeyDesc, hg, hc, ih]

theorem sortByKeyDesc_map (key : α → Nat) (g : α → α)
    (hg : ∀ a, key (g a) = key a) (l : List α) :
    sortByKeyDesc key (l.map g) = (sortByKeyDesc key l).map g := by
  induction l with
  | nil => rfl
  | cons x xs ih => simp only [List.map_cons, sortByKeyDesc, ih,
      insertByKeyDesc_map key g hg]

/-- Startup outcome of a server variant. -/
inductive Startup where
  | exit (code : Nat) : Startup
  | started (uri : String) : Startup
deriving DecidableEq

/-! ## Part000: the authenticated variant

bcrypt-hashed passwords, JWT tokens, structured `owner`, protected
listing routes (`authenticateToken` middleware). -/

namespace Part000

/-- A stored User document of the authenticated variant.  The `password`
field stores the bcrypt hash. -/
structure User where
  id : Nat
  email : String
  password : String
  name : String
deriving DecidableEq

/-- The structured owner record embedded in a Book document. -/
structure Owner where
  userId : Nat
  name : String
  email : String
deriving DecidableEq

/-- An embedded message sub-document (`msgs` array entries). -/
structure Msg where
  by_ : String
  text : String
  timestamp : Nat
deriving DecidableEq

/-- A Book (listing) document of the authenticated variant. -/
structure Book where
  id : Nat
  title : String
  author : String
  description : String
  price : Int
  exchange : Bool
  type : String
  condition : String
  image : String
  owner : Owner
  msgs : List Msg
  createdAt : Nat
deriving DecidableEq

/-- `UserSchema.methods.createToken`: sign the identity payload with the
configured secret, with a 7-day expiry (the token starts out unexpired). -/
def createToken (u : User) : Jwt :=
  .signed ⟨u.id, u.name, u.email⟩ jwtSecret false

/-- Outcome of the `authenticateToken` middleware. -/
inductive AuthCheck where
  | missing401 : AuthCheck
  | invalid403 : AuthCheck
  | authed (user : Identity) : AuthCheck
deriving DecidableEq

/-- HTTP status sent by the `authenticateToken` middleware on failure
(`none` when the middleware calls `next()`). -/
def authStatus : AuthCheck → Option Nat
  | .missing401 => some 401
  | .invalid403 => some 403
  | .authed _ => none

/-- The `authenticateToken` middleware: 401 when no token is present on
the request, 403 when `jwt.verify` errs, otherwise attach the verified
payload to the request. -/
def authenticateToken (token : Option Jwt) (secret : String) : AuthCheck :=
  match token with
  | none => .missing401
  | some t =>
      match jwtVerify t secret with
      | none => .invalid403
      | some user => .authed user

/-- `User.findOne(email)`. -/
def findUser (users : List User) (email : String) : Option User :=
  users.find? fun u => u.email == email

/-- `Book.findById(id)`. -/
def findBook (books : List Book) (id : Nat) : Option Book :=
  books.find? fun b => b.id == id

/-- `Book.deleteOne(_id: id)`: remove the (first) document with that id. -/
def removeBook (books : List Book) (id : Nat) : List Book :=
  match books with
  | [] => []
  | b :: bs => if b.id = id then bs else b :: removeBook bs id

/-- `book.save()` after mutating the document found by id: write the
updated document back in place. -/
def replaceBook (books : List Book) (id : Nat) (b' : Book) : List Book :=
  books.map fun c => if c.id = id then b' else c

/-- Result of `POST /api/auth/signup`. -/
inductive SignupResult where
  | invalid400 (message : String) : SignupResult
  | conflict409 : SignupResult
  | created201 (userId : Nat) (name email : String) (token : Jwt) : SignupResult
deriving DecidableEq

/-- The `POST /api/auth/signup` route: field check, `@gmail.com` domain
check, duplicate check, then hash the password, save the user and mint a
token.  `freshId` is the id Mongo assigns to the new document. -/
def signup (users : List User) (email password name : String) (freshId : Nat) :
    SignupResult × List User :=
  if email = "" ∨ password = "" ∨ name = "" then
    (.invalid400 "Please provide name, email, and password.", users)
  else if strEndsWith email "@gmail.com" = false then
    (.invalid400 "Only emails ending with @gmail.com are allowed.", users)
  else
    match findUser users email with
    | some _ => (.conflict409, users)
    | none =>
        let newUser : User := ⟨freshId, email, bcryptHash password, name⟩
        (.created201 freshId name email (createToken newUser), users ++ [newUser])

/-- Result of `POST /api/auth/login`. -/
inductive LoginResult where
  | invalid400 (message : String) : LoginResult
  | unauthorized401 (message : String) : LoginResult
  | ok200 (userId : Nat) (name email : String) (token : Jwt) : LoginResult
deriving DecidableEq

/-- The `POST /api/auth/login` route: find the user by email, compare the
password against the stored hash; both failure branches send the same
generic `401 Invalid credentials.` response. -/
def login (users : List User) (email password : String) : LoginResult :=
  if email = "" ∨ password = "" then
    .invalid400 "Please provide email and password."
  else
    match findUser users email with
    | none => .unauthorized401 "Invalid credentials."
    | some u =>
        if bcryptCompare password u.password = false then
          .unauthorized401 "Invalid credentials."
        else
          .ok200 u.id u.name u.email (createToken u)

/-- The JSON body of a `POST /api/books` request.  The route destructures
only `title, author, description, price, type, condition, image`; any
`owner` or `contact` value a client puts in the body is present here but
never read by the handler. -/
structure CreateBody where
  title : String
  author : String
  description : String
  price : Option Int
  type : String
  condition : Option String
  image : String
  owner : Option Owner
  contact : Option String
deriving DecidableEq

/-- Result of `POST /api/books` (after the auth middleware). -/
inductive CreateResult where
  | invalid400 : CreateResult
  | created201 (book : Book) : CreateResult
deriving DecidableEq

/-- The `POST /api/books` route body (the part after `authenticateToken`):
validate `title, description, type, price`, then build the new Book with
`owner` pulled from the authenticated token payload (`req.user`) and
`exchange` derived from the type.  `freshId` and `now` are the id and
`createdAt` default the storage layer supplies. -/
def createBook (user : Identity) (body : CreateBody) (freshId now : Nat) :
    CreateResult :=
  if body.title = "" ∨ body.description = "" ∨ body.type = "" ∨ body.price = none then
    .invalid400
  else
    .created201 {
      id := freshId
      title := body.title
      author := body.author
      description := body.description
      price := body.price.getD 0
      exchange := body.type == "Exchange"
      type := body.type
      condition := body.condition.getD "Good"
      image := body.image
      owner := ⟨user.userId, user.name, user.email⟩
      msgs := []
      createdAt := now }

/-- The summary projection sent by `GET /api/books`: every Book field
except the `msgs` array (`select(-msgs)`). -/
structure BookSummary where
  id : Nat
  title : String
  author : String
  description : String
  price : Int
  exchange : Bool
  type : String
  condition : String
  image : String
  owner : Owner
  createdAt : Nat
deriving DecidableEq

/-- Project a Book document to its `msgs`-free summary. -/
def toSummary (b : Book) : BookSummary :=
  ⟨b.id, b.title, b.author, b.description, b.price, b.exchange, b.type,
    b.condition, b.image, b.owner, b.createdAt⟩

/-- The `GET /api/books` route:
`Book.find().sort(createdAt: -1).select(-msgs)`. -/
def listBooks (books : List Book) : List BookSummary :=
  (sortByKeyDesc (fun b => b.createdAt) books).map toSummary

/-- Result of `DELETE /api/books/:id` (after the auth middleware). -/
inductive DeleteResult where
  | notFound404 : DeleteResult
  | forbidden403 : DeleteResult
  | deleted200 : DeleteResult
deriving DecidableEq

/-- The `DELETE /api/books/:id` route body: 404 when no book has the id,
403 when the owner of the book is not the authenticated user, otherwise
delete the document. -/
def deleteBook (books : List Book) (user : Identity) (id : Nat) :
    DeleteResult × List Book :=
  match findBook books id with
  | none => (.notFound404, books)
  | some book =>
      if book.owner.userId ≠ user.userId then (.forbidden403, books)
      else (.deleted200, removeBook books id)

/-- Result of `POST /api/books/:id/message` (after the auth middleware). -/
inductive MessageResult where
  | notFound404 : MessageResult
  | textRequired400 : MessageResult
  | created201 (message : Msg) : MessageResult
deriving DecidableEq

/-- The `POST /api/books/:id/message` route body: 404 when the listing is
missing, 400 when the text is empty, otherwise push
`(by: req.user.name, text, timestamp)` onto the `msgs` array, save, and
respond with the last element of the array (the new message). -/
def appendMessage (books : List Book) (user : Identity) (id : Nat)
    (text : String) (now : Nat) : MessageResult × List Book :=
  match findBook books id with
  | none => (.notFound404, books)
  | some book =>
      if text = "" then (.textRequired400, books)
      else
        let m : Msg := ⟨user.name, text, now⟩
        (.created201 m, replaceBook books id { book with msgs := book.msgs ++ [m] })

/-- `MONGO_URI = process.env.MONGO_URI || 'mongodb://127.0.0.1:27017/bookhub'`:
a JS falsy environment value (absent or empty) is replaced by the
hard-coded localhost default. -/
def mongoUri (env : Option String) : String :=
  match env with
  | none => "mongodb://127.0.0.1:27017/bookhub"
  | some s => if s = "" then "mongodb://127.0.0.1:27017/bookhub" else s

/-- The startup check of this variant:
`if (!MONGO_URI) process.exit(1)` evaluated on the defaulted value. -/
def startup (env : Option String) : Startup :=
  if mongoUri env = "" then .exit 1 else .started (mongoUri env)

end Part000

/-! ## Part001: the simulated-authentication variant

Login checks only that the email ends with `@gmail.com` and issues a
placeholder token; `GET /api/books` returns full documents (no `msgs`
projection). -/

namespace Part001

/-- An embedded message sub-document of this variant. -/
structure Msg where
  by_ : String
  text : String
  ts : Nat
deriving DecidableEq

/-- The owner sub-record of this variant (string userId). -/
structure Owner where
  name : String
  email : String
  userId : String
deriving DecidableEq

/-- A Book document of this variant. -/
structure Book where
  id : Nat
  title : String
  author : String
  subject : String
  description : String
  type : String
  price : Int
  condition : String
  image : String
  owner : Owner
  msgs : List Msg
  createdAt : Nat
deriving DecidableEq

/-- The standard base64 alphabet used by `Buffer.toString(base64)`. -/
def base64Alphabet : List Char :=
  String.toList "ABCDEFGHIJKLMNOPQRSTUVWXYZabcdefghijklmnopqrstuvwxyz0123456789+/"

/-- The base64 digit for a 6-bit value. -/
def base64Char (n : Nat) : Char :=
  base64Alphabet.getD n 'A'

/-- Standard base64 encoding of a byte sequence, with padding, as produced
by `Buffer.from(s).toString(base64)`. -/
def base64Encode : List Nat → String
  | [] => ""
  | [a] =>
      String.mk [base64Char (a / 4), base64Char (a % 4 * 16)] ++ "=="
  | [a, b] =>
      String.mk [base64Char (a / 4), base64Char (a % 4 * 16 + b / 16),
        base64Char (b % 16 * 4)] ++ "="
  | a :: b :: c :: rest =>
      String.mk [base64Char (a / 4), base64Char (a % 4 * 16 + b / 16),
        base64Char (b % 16 * 4 + c / 64), base64Char (c % 64)] ++ base64Encode rest

/-- UTF-8 encoding of one character as byte values (the encoding
`Buffer.from(string)` applies). -/
def utf8Bytes (c : Char) : List Nat :=
  let n := c.toNat
  if n < 128 then [n]
  else if n < 2048 then [192 + n / 64, 128 + n % 64]
  else if n < 65536 then [224 + n / 4096, 128 + n / 64 % 64, 128 + n % 64]
  else [240 + n / 262144, 128 + n / 4096 % 64, 128 + n / 64 % 64, 128 + n % 64]

/-- The UTF-8 bytes of a string (`Buffer.from(s)`). -/
def strUtf8 (s : String) : List Nat :=
  s.data.flatMap utf8Bytes

/-- The simulated user id:
`user_ + Buffer.from(email).toString(base64).slice(0, 12)`. -/
def simUserId (email : String) : String :=
  "user_" ++ String.mk ((base64Encode (strUtf8 email)).data.take 12)

/-- The JSON body of a `POST /api/auth/login` request in this variant; the
handler destructures only `name` and `email`, so a `password` value is
carried but never read. -/
structure LoginBody where
  name : String
  email : String
  password : String
deriving DecidableEq

/-- The simulated user object returned on login. -/
structure SimUser where
  name : String
  email : String
  userId : String
  token : String
deriving DecidableEq

/-- Result of the simulated `POST /api/auth/login`. -/
inductive LoginResult where
  | denied401 (error : String) : LoginResult
  | ok200 (message : String) (user : SimUser) : LoginResult
deriving DecidableEq

/-- HTTP status of a simulated login response. -/
def loginStatus : LoginResult → Nat
  | .denied401 _ => 401
  | .ok200 _ _ => 200

/-- The simulated `POST /api/auth/login` route: 401 unless the email ends
with `@gmail.com`, otherwise 200 with the simulated user object and the
placeholder token; no credential is ever checked. -/
def login (body : LoginBody) : LoginResult :=
  if strEndsWith body.email "@gmail.com" = false then
    .denied401 "Access Denied: Email must end with @gmail.com"
  else
    .ok200 "Login successful. (Simulated)"
      ⟨body.name, body.email, simUserId body.email, "simulated_jwt_token_for_user"⟩

/-- The `GET /api/books` route of this variant:
`Book.find().sort(createdAt: -1)` with no projection — full documents,
embedded `msgs` included. -/
def listBooks (books : List Book) : List Book :=
  sortByKeyDesc (fun b => b.createdAt) books

end Part001

/-! ## Part002: real signup/login, unprotected listing routes, and a
strict MONGO_URI startup check (no default value). -/

namespace Part002

/-- `const MONGO_URI = process.env.MONGO_URI` with no default, followed by
`if (!MONGO_URI) process.exit(1)`: an absent or empty environment value is
falsy and terminates the process at startup. -/
def startup (env : Option String) : Startup :=
  match env with
  | none => .exit 1
  | some s => if s = "" then .exit 1 else .started s

end Part002

/-! ## DocsServer: the minimal variant in Documents/Book app/server.js
(no auth, plain contact string, delete without a NotFound check). -/

namespace DocsServer

/-- A Book document of the minimal variant. -/
structure Book where
  id : Nat
  title : String
  type : String
  price : Int
  condition : String
  contact : String
  image : String
  createdAt : Nat
deriving DecidableEq

/-- A plain JSON response (status plus message body). -/
structure Response where
  status : Nat
  message : String
deriving DecidableEq

/-- `POST /api/books`: `new Book(req.body).save()` — append the new
document to the collection. -/
def createBook (books : List Book) (b : Book) : List Book :=
  books ++ [b]

/-- `GET /api/books`: `Book.find().sort(createdAt: -1)`. -/
def listBooks (books : List Book) : List Book :=
  sortByKeyDesc (fun b => b.createdAt) books

/-- `Book.findByIdAndDelete(id)`: remove the (first) document with that
id, if any. -/
def removeBook (books : List Book) (id : Nat) : List Book :=
  match books with
  | [] => []
  | b :: bs => if b.id = id then bs else b :: removeBook bs id

/-- The `DELETE /api/books/:id` route of this variant: the result of
`findByIdAndDelete` is never inspected, so the route always answers
`200 Deleted successfully`, whether or not a document with that id
existed. -/
def deleteBook (books : List Book) (id : Nat) : Response × List Book :=
  (⟨200, "Deleted successfully"⟩, removeBook books id)

end DocsServer

/-! ## Auxiliary lemmas about the storage operations -/

/-- After removing the document with a given id from a collection whose
ids are unique, no remaining document carries that id. -/
theorem removeBook_mem_ne (books : List Part000.Book) (id : Nat)
    (h : (books.map fun b => b.id).Nodup) :
    ∀ c ∈ Part000.removeBook books id, c.id ≠ id := by
  induction books with
  | nil => intro c hc; simp [Part000.removeBook] at hc
  | cons b bs ih =>
    rw [List.map_cons, List.nodup_cons] at h
    intro c hc
    by_cases hb : b.id = id
    · rw [Part000.removeBook, if_pos hb] at hc
      intro hcid
      exact h.1 (by rw [hb, ← hcid]; exact List.mem_map_of_mem _ hc)
    · rw [Part000.removeBook, if_neg hb] at hc
      rcases List.mem_cons.mp hc with rfl | hc'
      · exact hb
      · exact ih h.2 c hc'

/-- Writing back an updated document leaves every document with a
different id in the collection. -/
theorem mem_replaceBook_of_ne (books : List Part000.Book) (id : Nat)
    (b' : Part000.Book) :
    ∀ c ∈ books, c.id ≠ id → c ∈ Part000.replaceBook books id b' := by
  intro c hc hne
  have h := List.mem_map_of_mem (fun x => if x.id = id then b' else x) hc
  simpa [Part000.replaceBook, hne] using h

/-- If a document with the given id exists, then after writing back an
updated document with that id, `findById` returns the updated document. -/
theorem findBook_replaceBook (books : List Part000.Book) (id : Nat)
    (b b' : Part000.Book) (hid : b'.id = id)
    (hb : Part000.findBook books id = some b) :
    Part000.findBook (Part000.replaceBook books id b') id = some b' := by
  induction books with
  | nil => simp [Part000.findBook] at hb
  | cons c cs ih =>
    by_cases hc : c.id = id
    · simp [Part000.findBook, Part000.replaceBook, hc, hid]
    · have hb' : Part000.findBook cs id = some b := by
        simpa [Part000.findBook, hc] using hb
      simpa [Part000.findBook, Part000.replaceBook, hc] using ih hb'

/-- `findOne` over a collection extended on the right by one user: when
the email is not present in the original collection, the new user is
found exactly when the email matches. -/
theorem findUser_append_singleton (users : List Part000.User) (email : String)
    (u : Part000.User) (h : Part000.findUser users email = none) :
    Part000.findUser (users ++ [u]) email =
      if u.email = email then some u else none := by
  induction users with
  | nil =>
    by_cases hu : u.email = email
    · simp [Part000.findUser, List.find?, hu]
    · have hb : (u.email == email) = false := by
        rw [beq_eq_false_iff_ne]; exact hu
      simp [Part000.findUser, List.find?, hb, hu]
  | cons v vs ih =>
    by_cases hv : v.email == email
    · simp [Part000.findUser, List.find?, hv] at h
    · have h' : Part000.findUser vs email = none := by
        simpa [Part000.findUser, List.find?, hv] using h
      simpa [Part000.findUser, List.find?, hv] using ih h'

/-! ## Claim theorems -/

/-- Claim C1: in the authenticated variant, every successfully stored
listing has its owner record taken entirely from the verified token
claims, and the created listing is unchanged when only the owner or
contact fields of the request body change. -/
theorem claimC1_owner_from_verified_identity :
    (∀ (user : Identity) (body : Part000.CreateBody) (freshId now : Nat)
        (b : Part000.Book),
      Part000.createBook user body freshId now = .created201 b →
      b.owner = ⟨user.userId, user.name, user.email⟩) ∧
    (∀ (user : Identity) (body : Part000.CreateBody) (o : Option Part000.Owner)
        (c : Option String) (freshId now : Nat),
      Part000.createBook user { body with owner := o, contact := c } freshId now =
        Part000.createBook user body freshId now) := by
  constructor
  · intro user body freshId now b h
    unfold Part000.createBook at h
    split at h
    · exact absurd h (by simp)
    · cases h
      rfl
  · intro user body o c freshId now
    rfl

def c1User : Identity := ⟨7, "Uma", "uma@gmail.com"⟩

def c1Body : Part000.CreateBody :=
  ⟨"Calculus", "Stewart", "Well kept", some 100, "Sell", some "Good", "", none, none⟩

def c1Book : Part000.Book :=
  ⟨1, "Calculus", "Stewart", "Well kept", 100, false, "Sell", "Good", "",
    ⟨7, "Uma", "uma@gmail.com"⟩, [], 5⟩

/-- Witness for C1 at a concrete create request. -/
theorem claimC1_owner_from_verified_identity_witness :
    c1Book.owner = ⟨c1User.userId, c1User.name, c1User.email⟩ :=
  claimC1_owner_from_verified_identity.1 c1User c1Body 1 5 c1Book (by decide)

/-- Claim C2 counterexample: a malformed (or otherwise unverifiable)
token is answered by the `authenticateToken` middleware with status 403,
not 401 as the claim states; only a missing token produces 401. -/
theorem claimC2_invalid_token_status_counterexample :
    Part000.authStatus (Part000.authenticateToken (some .malformed) jwtSecret) =
      some 403 ∧
    Part000.authStatus (Part000.authenticateToken (some .malformed) jwtSecret) ≠
      some 401 := by
  decide

/-- Claim C2 (amended): the middleware answers 401 when the token is
missing from the request, 403 when `jwt.verify` rejects it (malformed,
wrong signature, or expired), and attaches the verified claims
otherwise. -/
theorem claimC2_auth_failure_statuses :
    (∀ secret : String,
      Part000.authenticateToken none secret = .missing401 ∧
      Part000.authStatus (Part000.authenticateToken none secret) = some 401) ∧
    (∀ (t : Jwt) (secret : String), jwtVerify t secret = none →
      Part000.authenticateToken (some t) secret = .invalid403 ∧
      Part000.authStatus (Part000.authenticateToken (some t) secret) = some 403) ∧
    (∀ (t : Jwt) (secret : String) (u : Identity), jwtVerify t secret = some u →
      Part000.authenticateToken (some t) secret = .authed u) := by
  refine ⟨fun secret => ⟨rfl, rfl⟩, ?_, ?_⟩
  · intro t secret h
    simp [Part000.authenticateToken, h, Part000.authStatus]
  · intro t secret u h
    simp [Part000.authenticateToken, h]

/-- Witness for C2 (amended) at a concrete expired token. -/
theorem claimC2_auth_failure_statuses_witness :
    Part000.authenticateToken (some (.signed ⟨1, "U", "u@gmail.com"⟩ jwtSecret true))
        jwtSecret = .invalid403 ∧
    Part000.authStatus
        (Part000.authenticateToken
          (some (.signed ⟨1, "U", "u@gmail.com"⟩ jwtSecret true)) jwtSecret) =
      some 403 :=
  claimC2_auth_failure_statuses.2.1 (.signed ⟨1, "U", "u@gmail.com"⟩ jwtSecret true)
    jwtSecret (by decide)

/-- Claim C3 counterexample: in the Documents/Book app variant, deleting
an id that matches no listing still answers `200 Deleted successfully`;
the route never checks the result of `findByIdAndDelete`, so a missing
listing does not produce NotFound. -/
theorem claimC3_delete_missing_counterexample :
    (DocsServer.deleteBook [] 5).1 = ⟨200, "Deleted successfully"⟩ ∧
    (DocsServer.deleteBook [] 5).1.status ≠ 404 := by
  decide

/-- Claim C3 (amended): in the authenticated variant, delete answers
NotFound when no listing has the id, Forbidden (with the listing kept)
when the caller is not the owner, and on an owner delete it removes the
document so that a subsequent list() no longer contains its id; in the
Documents/Book app variant the missing-id case instead reports success. -/
theorem claimC3_delete_semantics :
    ∀ (books : List Part000.Book) (user : Identity) (id : Nat),
      (Part000.findBook books id = none →
        Part000.deleteBook books user id = (.notFound404, books)) ∧
      (∀ b, Part000.findBook books id = some b → b.owner.userId ≠ user.userId →
        Part000.deleteBook books user id = (.forbidden403, books) ∧ b ∈ books) ∧
      (∀ b, Part000.findBook books id = some b → b.owner.userId = user.userId →
        (books.map fun c => c.id).Nodup →
        Part000.deleteBook books user id = (.deleted200, Part000.removeBook books id) ∧
        ∀ s ∈ Part000.listBooks (Part000.removeBook books id), s.id ≠ id) := by
  intro books user id
  refine ⟨?_, ?_, ?_⟩
  · intro h
    simp [Part000.deleteBook, h]
  · intro b hb hne
    refine ⟨by simp [Part000.deleteBook, hb, hne], ?_⟩
    exact List.mem_of_find?_eq_some hb
  · intro b hb howner hnodup
    refine ⟨by simp [Part000.deleteBook, hb, howner], ?_⟩
    intro s hs
    unfold Part000.listBooks at hs
    rcases List.mem_map.mp hs with ⟨c, hc, hcs⟩
    have hc' : c ∈ Part000.removeBook books id :=
      (mem_sortByKeyDesc _ _ c).mp hc
    have := removeBook_mem_ne books id hnodup c hc'
    rw [← hcs]
    exact this

def c3Book : Part000.Book :=
  ⟨3, "Physics", "Halliday", "Used once", 250, false, "Sell", "Good", "",
    ⟨7, "Uma", "uma@gmail.com"⟩, [], 9⟩

/-- Witness for C3 (amended) at a concrete owner delete. -/
theorem claimC3_delete_semantics_witness :
    Part000.deleteBook [c3Book] ⟨7, "Uma", "uma@gmail.com"⟩ 3 =
      (.deleted200, Part000.removeBook [c3Book] 3) ∧
    ∀ s ∈ Part000.listBooks (Part000.removeBook [c3Book] 3), s.id ≠ 3 :=
  (claimC3_delete_semantics [c3Book] ⟨7, "Uma", "uma@gmail.com"⟩ 3).2.2 c3Book
    (by decide) (by decide) (by decide)

/-- Claim C4: logging in with an unknown email and logging in with a
wrong password for an existing email produce the very same response —
the generic `401 Invalid credentials.` error. -/
theorem claimC4_login_no_account_enumeration :
    ∀ (users : List Part000.User) (e1 p1 e2 p2 : String) (u : Part000.User),
      e1 ≠ "" → p1 ≠ "" → e2 ≠ "" → p2 ≠ "" →
      Part000.findUser users e1 = none →
      Part000.findUser users e2 = some u →
      bcryptCompare p2 u.password = false →
      Part000.login users e1 p1 = Part000.login users e2 p2 ∧
      Part000.login users e1 p1 = .unauthorized401 "Invalid credentials." := by
  intro users e1 p1 e2 p2 u h1 h2 h3 h4 hf1 hf2 hcmp
  have l1 : Part000.login users e1 p1 = .unauthorized401 "Invalid credentials." := by
    simp [Part000.login, h1, h2, hf1]
  have l2 : Part000.login users e2 p2 = .unauthorized401 "Invalid credentials." := by
    simp [Part000.login, h3, h4, hf2, hcmp]
  exact ⟨by rw [l1, l2], l1⟩

def c4Users : List Part000.User := [⟨1, "u@gmail.com", "bcrypt$pw", "U"⟩]

/-- Witness for C4 at a concrete user store: unknown email versus wrong
password for the stored account. -/
theorem claimC4_login_no_account_enumeration_witness :
    Part000.login c4Users "v@gmail.com" "x" = Part000.login c4Users "u@gmail.com" "wrong" ∧
    Part000.login c4Users "v@gmail.com" "x" = .unauthorized401 "Invalid credentials." :=
  claimC4_login_no_account_enumeration c4Users "v@gmail.com" "x" "u@gmail.com" "wrong"
    ⟨1, "u@gmail.com", "bcrypt$pw", "U"⟩ (by decide) (by decide) (by decide) (by decide)
    (by decide) (by decide) (by decide)

/-- Claim C5: with strictly increasing creation times, list() returns
exactly as many items as were created, ordered newest first; creating
A, B, C in that order makes list() return [C, B, A]. -/
theorem claimC5_list_newest_first :
    (∀ books : List DocsServer.Book,
      books.Pairwise (fun a b => a.createdAt < b.createdAt) →
      DocsServer.listBooks books = books.reverse ∧
      (DocsServer.listBooks books).length = books.length) ∧
    (∀ A B C : DocsServer.Book,
      A.createdAt < B.createdAt → B.createdAt < C.createdAt →
      DocsServer.listBooks
          (DocsServer.createBook (DocsServer.createBook (DocsServer.createBook [] A) B) C) =
        [C, B, A]) := by
  constructor
  · intro books h
    exact ⟨sortByKeyDesc_eq_reverse _ books h, length_sortByKeyDesc _ books⟩
  · intro A B C hab hbc
    have h : ([A, B, C] : List DocsServer.Book).Pairwise
        (fun a b => a.createdAt < b.createdAt) := by
      refine List.pairwise_cons.mpr ⟨?_, List.pairwise_cons.mpr ⟨?_, ?_⟩⟩
      · intro x hx
        rcases List.mem_cons.mp hx with rfl | hx'
        · exact hab
        · rcases List.mem_singleton.mp hx' with rfl
          exact lt_trans hab hbc
      · intro x hx
        rcases List.mem_singleton.mp hx with rfl
        exact hbc
      · exact List.pairwise_singleton _ _
    have hrev := sortByKeyDesc_eq_reverse (fun b => b.createdAt) [A, B, C] h
    simpa [DocsServer.listBooks, DocsServer.createBook] using hrev

def c5A : DocsServer.Book := ⟨1, "A", "Sell", 10, "Good", "a@gmail.com", "", 1⟩
def c5B : DocsServer.Book := ⟨2, "B", "Sell", 20, "Good", "b@gmail.com", "", 2⟩
def c5C : DocsServer.Book := ⟨3, "C", "Sell", 30, "Good", "c@gmail.com", "", 3⟩

/-- Witness for C5 at concrete listings created at times 1, 2, 3. -/
theorem claimC5_list_newest_first_witness :
    DocsServer.listBooks
        (DocsServer.createBook (DocsServer.createBook (DocsServer.createBook [] c5A) c5B) c5C) =
      [c5C, c5B, c5A] :=
  claimC5_list_newest_first.2 c5A c5B c5C (by decide) (by decide)

def c6Msg : Part001.Msg := ⟨"alice", "is this available", 5⟩

def c6Book : Part001.Book :=
  ⟨1, "Algebra", "Lang", "Math", "Hardcover", "Sell", 100, "Good", "",
    ⟨"Ono", "ono@gmail.com", "user_ono"⟩, [c6Msg], 3⟩

/-- Claim C6 counterexample: in the part_001 variant, `GET /api/books`
returns full documents, so a listing that carries a message comes back
from list() with its `msgs` field populated — the summary does not omit
messages in that variant. -/
theorem claimC6_list_includes_msgs_counterexample :
    Part001.listBooks [c6Book] = [c6Book] ∧ c6Book.msgs = [c6Msg] := by
  decide

/-- Claim C6 (amended): in the authenticated part_000 variant, the list
projection drops `msgs` — the response is unchanged under any rewrite of
every listing's messages; in part_001, list() keeps each stored document
(messages included) in its output. -/
theorem claimC6_list_projection :
    (∀ (books : List Part000.Book) (f : Part000.Book → List Part000.Msg),
      Part000.listBooks (books.map fun b => { b with msgs := f b }) =
        Part000.listBooks books) ∧
    (∀ (books : List Part001.Book) (b : Part001.Book),
      b ∈ books → b ∈ Part001.listBooks books) := by
  constructor
  · intro books f
    unfold Part000.listBooks
    rw [sortByKeyDesc_map (fun b : Part000.Book => b.createdAt)
      (fun b : Part000.Book => { b with msgs := f b }) (fun a => rfl) books,
      List.map_map]
    exact List.map_congr_left fun a _ => rfl
  · intro books b hb
    exact (mem_sortByKeyDesc _ books b).mpr hb

/-- Witness for C6 (amended): the stored part_001 document is in the
list() output. -/
theorem claimC6_list_projection_witness :
    c6Book ∈ Part001.listBooks [c6Book] :=
  claimC6_list_projection.2 [c6Book] c6Book (by decide)

/-- Claim C7: appendMessage answers NotFound when the listing is missing;
otherwise it appends the new (senderName, text, timestamp) entry at the
end of the listing's message sequence, leaves the earlier messages as a
prefix, and the response is exactly the new message, while every other
listing is untouched. -/
theorem claimC7_append_message :
    ∀ (books : List Part000.Book) (user : Identity) (id : Nat)
      (text : String) (now : Nat),
      (Part000.findBook books id = none →
        Part000.appendMessage books user id text now = (.notFound404, books)) ∧
      (∀ b, Part000.findBook books id = some b → text ≠ "" →
        Part000.appendMessage books user id text now =
          (.created201 ⟨user.name, text, now⟩,
            Part000.replaceBook books id
              { b with msgs := b.msgs ++ [⟨user.name, text, now⟩] }) ∧
        Part000.findBook (Part000.appendMessage books user id text now).2 id =
          some { b with msgs := b.msgs ++ [⟨user.name, text, now⟩] } ∧
        ∀ c ∈ books, c.id ≠ id →
          c ∈ (Part000.appendMessage books user id text now).2) := by
  intro books user id text now
  refine ⟨?_, ?_⟩
  · intro h
    simp [Part000.appendMessage, h]
  · intro b hb htext
    have happ : Part000.appendMessage books user id text now =
        (.created201 ⟨user.name, text, now⟩,
          Part000.replaceBook books id
            { b with msgs := b.msgs ++ [⟨user.name, text, now⟩] }) := by
      simp [Part000.appendMessage, hb, htext]
    refine ⟨happ, ?_, ?_⟩
    · rw [happ]
      have hid : b.id = id := by
        have h' := List.find?_some hb
        simpa using h'
      exact findBook_replaceBook books id b _ hid hb
    · intro c hc hne
      rw [happ]
      exact mem_replaceBook_of_ne books id _ c hc hne

def c7Book : Part000.Book :=
  ⟨4, "Optics", "Hecht", "Like new", 300, false, "Sell", "Like New", "",
    ⟨7, "Uma", "uma@gmail.com"⟩, [⟨"Bo", "still there", 2⟩], 9⟩

/-- Witness for C7 at a concrete listing that already holds one
message. -/
theorem claimC7_append_message_witness :
    Part000.appendMessage [c7Book] ⟨9, "Vik", "vik@gmail.com"⟩ 4 "price" 11 =
      (.created201 ⟨"Vik", "price", 11⟩,
        Part000.replaceBook [c7Book] 4
          { c7Book with msgs := c7Book.msgs ++ [⟨"Vik", "price", 11⟩] }) ∧
    Part000.findBook
        (Part000.appendMessage [c7Book] ⟨9, "Vik", "vik@gmail.com"⟩ 4 "price" 11).2 4 =
      some { c7Book with msgs := c7Book.msgs ++ [⟨"Vik", "price", 11⟩] } ∧
    ∀ c ∈ [c7Book], c.id ≠ 4 →
      c ∈ (Part000.appendMessage [c7Book] ⟨9, "Vik", "vik@gmail.com"⟩ 4 "price" 11).2 :=
  (claimC7_append_message [c7Book] ⟨9, "Vik", "vik@gmail.com"⟩ 4 "price" 11).2 c7Book
    (by decide) (by decide)

/-- Claim C8: a second signup with an email that already has an account
answers Conflict and leaves the user collection exactly as it was after
the first signup (one record for that email, none added). -/
theorem claimC8_duplicate_signup_conflict :
    ∀ (users : List Part000.User) (e p n p2 n2 : String) (id1 id2 : Nat),
      e ≠ "" → p ≠ "" → n ≠ "" → p2 ≠ "" → n2 ≠ "" →
      strEndsWith e "@gmail.com" = true →
      Part000.findUser users e = none →
      Part000.signup ((Part000.signup users e p n id1).2) e p2 n2 id2 =
        (.conflict409, (Part000.signup users e p n id1).2) ∧
      (Part000.signup users e p n id1).2 = users ++ [⟨id1, e, bcryptHash p, n⟩] := by
  intro users e p n p2 n2 id1 id2 he hp hn hp2 hn2 hdom hfind
  have hstate : (Part000.signup users e p n id1).2 =
      users ++ [⟨id1, e, bcryptHash p, n⟩] := by
    simp [Part000.signup, he, hp, hn, hdom, hfind]
  refine ⟨?_, hstate⟩
  have hfind2 : Part000.findUser (users ++ [⟨id1, e, bcryptHash p, n⟩]) e =
      some ⟨id1, e, bcryptHash p, n⟩ := by
    rw [findUser_append_singleton users e _ hfind]
    simp
  rw [hstate]
  simp [Part000.signup, he, hp2, hn2, hdom, hfind2]

/-- Witness for C8 at a concrete pair of signups with the same email. -/
theorem claimC8_duplicate_signup_conflict_witness :
    Part000.signup ((Part000.signup [] "u@gmail.com" "pw" "U" 1).2) "u@gmail.com"
        "other" "V" 2 =
      (.conflict409, (Part000.signup [] "u@gmail.com" "pw" "U" 1).2) ∧
    (Part000.signup [] "u@gmail.com" "pw" "U" 1).2 =
      [] ++ [⟨1, "u@gmail.com", bcryptHash "pw", "U"⟩] :=
  claimC8_duplicate_signup_conflict [] "u@gmail.com" "pw" "U" "other" "V" 1 2
    (by decide) (by decide) (by decide) (by decide) (by decide) (by decide) (by decide)

/-- Claim C9 counterexample: in the part_000 variant the connection
string is defaulted (`process.env.MONGO_URI || mongodb-localhost`), so
with the environment variable absent the fatal check never fires and the
process starts against the localhost default instead of exiting. -/
theorem claimC9_startup_default_counterexample :
    Part000.startup none = .started "mongodb://127.0.0.1:27017/bookhub" ∧
    Part000.startup none ≠ .exit 1 := by
  decide

/-- Claim C9 (amended): the part_002 variant fails fast — an absent or
empty MONGO_URI terminates the process with exit code 1, and a non-empty
one starts the server; the part_000 variant never exits at this check
because its connection string is defaulted. -/
theorem claimC9_startup_fail_fast :
    Part002.startup none = .exit 1 ∧
    Part002.startup (some "") = .exit 1 ∧
    (∀ s : String, s ≠ "" → Part002.startup (some s) = .started s) ∧
    (∀ env : Option String, Part000.startup env ≠ .exit 1) := by
  refine ⟨rfl, rfl, ?_, ?_⟩
  · intro s hs
    simp [Part002.startup, hs]
  · intro env
    cases env with
    | none => simp [Part000.startup, Part000.mongoUri]
    | some s =>
      by_cases hs : s = "" <;> simp [Part000.startup, Part000.mongoUri, hs]

/-- Witness for C9 (amended) at a concrete configured connection
string. -/
theorem claimC9_startup_fail_fast_witness :
    Part002.startup (some "mongodb://db-host:27017/bookhub") =
      .started "mongodb://db-host:27017/bookhub" :=
  claimC9_startup_fail_fast.2.2.1 "mongodb://db-host:27017/bookhub" (by decide)

/-- Claim C10: the simulated login never verifies a credential — any body
whose email ends with the gmail suffix is answered 200 with the simulated
user object and the placeholder token, the response never depends on the
password, and 401 is returned exactly when the email lacks the suffix. -/
theorem claimC10_simulated_login :
    ∀ body : Part001.LoginBody,
      (strEndsWith body.email "@gmail.com" = true →
        Part001.login body =
          .ok200 "Login successful. (Simulated)"
            ⟨body.name, body.email, Part001.simUserId body.email,
              "simulated_jwt_token_for_user"⟩ ∧
        Part001.loginStatus (Part001.login body) = 200) ∧
      (strEndsWith body.email "@gmail.com" = false →
        Part001.login body = .denied401 "Access Denied: Email must end with @gmail.com" ∧
        Part001.loginStatus (Part001.login body) = 401) ∧
      (∀ pw : String, Part001.login { body with password := pw } = Part001.login body) := by
  intro body
  refine ⟨?_, ?_, fun pw => rfl⟩
  · intro h
    refine ⟨by simp [Part001.login, h], ?_⟩
    simp [Part001.login, h, Part001.loginStatus]
  · intro h
    exact ⟨by simp [Part001.login, h], by simp [Part001.login, h, Part001.loginStatus]⟩

/-- Witness for C10 at a concrete gmail login body. -/
theorem claimC10_simulated_login_witness :
    Part001.login ⟨"Al", "a@gmail.com", "pw"⟩ =
      .ok200 "Login successful. (Simulated)"
        ⟨"Al", "a@gmail.com", Part001.simUserId "a@gmail.com",
          "simulated_jwt_token_for_user"⟩ ∧
    Part001.loginStatus (Part001.login ⟨"Al", "a@gmail.com", "pw"⟩) = 200 :=
  (claimC10_simulated_login ⟨"Al", "a@gmail.com", "pw"⟩).1 (by decide)

end BookHub
